import Mathlib

/-!
Shallow embedding of the Activity Session Tracker core of the
Screen-time-manager repository (backend of ScreenTimeAnalyzerPro):
`tracker/utils.py`, `tracker/idle_detector.py`, `tracker/realtime_tracker.py`,
`db/database.py` and the WebSocket `ConnectionManager` of `main.py`.

Timestamps (Python floats from `time.time()`) are modelled as rationals;
Python `int()` truncation toward zero is `pyInt`.  Strings are Lean strings,
manipulated through their character lists exactly as the Python code
manipulates them.
-/

namespace ScreenTime

/-! ### utils.py -/

/-- A character matched by the regex class `[\x00-\x1f\x7f-\x9f]` used in
`sanitize_window_title`. -/
def isControlChar (c : Char) : Bool :=
  c.toNat ≤ 0x1f || (0x7f ≤ c.toNat && c.toNat ≤ 0x9f)

/-- Characters stripped by Python `str.strip()` / split by `str.split()`
(the Unicode whitespace set Python uses). -/
def isPySpaceChar (c : Char) : Bool :=
  (0x09 ≤ c.toNat && c.toNat ≤ 0x0d) ||
  (0x1c ≤ c.toNat && c.toNat ≤ 0x1f) ||
  c.toNat = 0x20 || c.toNat = 0x85 || c.toNat = 0xa0 || c.toNat = 0x1680 ||
  (0x2000 ≤ c.toNat && c.toNat ≤ 0x200a) ||
  c.toNat = 0x2028 || c.toNat = 0x2029 || c.toNat = 0x202f ||
  c.toNat = 0x205f || c.toNat = 0x3000

/-- Python `str.strip()` on a character list. -/
def pyStripList (l : List Char) : List Char :=
  ((l.dropWhile isPySpaceChar).reverse.dropWhile isPySpaceChar).reverse

/-- Python `str.split()` (split on whitespace runs, dropping empty words). -/
def pySplitWs (l : List Char) : List (List Char) :=
  (l.splitOnP isPySpaceChar).filter (fun w => ¬ w.isEmpty)

/-- Python `str.capitalize()` on one word. -/
def pyCapitalize : List Char → List Char
  | [] => []
  | c :: cs => c.toUpper :: cs.map Char.toLower

/-- `APP_NAME_MAPPING` from `tracker/utils.py` (keys are matched after the
lower-cased name has had a trailing `.exe` removed). -/
def APP_NAME_MAPPING : List (String × String) :=
  [("chrome.exe", "Google Chrome"), ("chrome", "Google Chrome"),
   ("firefox.exe", "Firefox"), ("firefox", "Firefox"),
   ("msedge.exe", "Microsoft Edge"), ("msedge", "Microsoft Edge"),
   ("brave.exe", "Brave Browser"), ("brave", "Brave Browser"),
   ("code.exe", "Visual Studio Code"), ("code", "Visual Studio Code"),
   ("slack.exe", "Slack"), ("slack", "Slack"),
   ("teams.exe", "Microsoft Teams"), ("teams", "Microsoft Teams"),
   ("spotify.exe", "Spotify"), ("spotify", "Spotify"),
   ("vlc.exe", "VLC Media Player"), ("vlc", "VLC Media Player"),
   ("notepad++.exe", "Notepad++"), ("notepad++", "Notepad++"),
   ("pycharm64.exe", "PyCharm"), ("pycharm", "PyCharm"),
   ("idea64.exe", "IntelliJ IDEA"), ("idea", "IntelliJ IDEA"),
   ("excel.exe", "Microsoft Excel"), ("excel", "Microsoft Excel"),
   ("word.exe", "Microsoft Word"), ("word", "Microsoft Word"),
   ("powerpoint.exe", "Microsoft PowerPoint"), ("powerpoint", "Microsoft PowerPoint"),
   ("outlook.exe", "Microsoft Outlook"), ("outlook", "Microsoft Outlook"),
   ("discord.exe", "Discord"), ("discord", "Discord"),
   ("zoom.exe", "Zoom"), ("zoom", "Zoom"),
   ("notion.exe", "Notion"), ("notion", "Notion"),
   ("figma.exe", "Figma"), ("figma", "Figma"),
   ("photoshop.exe", "Adobe Photoshop"), ("photoshop", "Adobe Photoshop")]

/-- `APP_CATEGORIES` from `tracker/utils.py`. -/
def APP_CATEGORIES : List (String × String) :=
  [("Google Chrome", "Browser"), ("Firefox", "Browser"),
   ("Microsoft Edge", "Browser"), ("Brave Browser", "Browser"),
   ("Safari", "Browser"),
   ("Visual Studio Code", "Development"), ("PyCharm", "Development"),
   ("IntelliJ IDEA", "Development"), ("Sublime Text", "Development"),
   ("Atom", "Development"),
   ("Slack", "Communication"), ("Microsoft Teams", "Communication"),
   ("Discord", "Communication"), ("Zoom", "Communication"),
   ("Skype", "Communication"),
   ("Microsoft Excel", "Productivity"), ("Microsoft Word", "Productivity"),
   ("Microsoft PowerPoint", "Productivity"), ("Microsoft Outlook", "Productivity"),
   ("Notion", "Productivity"), ("Evernote", "Productivity"),
   ("Spotify", "Entertainment"), ("VLC Media Player", "Entertainment"),
   ("Netflix", "Entertainment"), ("YouTube", "Entertainment"),
   ("Figma", "Design"), ("Adobe Photoshop", "Design"),
   ("Adobe Illustrator", "Design"), ("Sketch", "Design")]

/-- Dictionary lookup (`dict.get`). -/
def lookupAssoc (k : String) : List (String × String) → Option String
  | [] => none
  | p :: rest => if p.1 = k then some p.2 else lookupAssoc k rest

/-- A character matched by the regex class `[^a-zA-Z0-9\s]` in
`normalize_app_name` is replaced by a space; this is the complement. -/
def isAlnumOrSpace (c : Char) : Bool :=
  (0x30 ≤ c.toNat && c.toNat ≤ 0x39) ||
  (0x41 ≤ c.toNat && c.toNat ≤ 0x5a) ||
  (0x61 ≤ c.toNat && c.toNat ≤ 0x7a) ||
  isPySpaceChar c

/-- `normalize_app_name` from `tracker/utils.py`. -/
def normalize_app_name (raw_name : String) : String :=
  if raw_name = "" then "UNKNOWN"
  else
    let lower_name := pyStripList (raw_name.data.map Char.toLower)
    let lower_name :=
      if lower_name.reverse.take 4 = ['e', 'x', 'e', '.'] then
        lower_name.take (lower_name.length - 4)
      else lower_name
    match lookupAssoc (String.mk lower_name) APP_NAME_MAPPING with
    | some v => v
    | none =>
      let clean_name := raw_name.data.map (fun c => if isAlnumOrSpace c then c else ' ')
      String.mk (List.intercalate [' '] ((pySplitWs clean_name).map pyCapitalize))

/-- `get_app_category` from `tracker/utils.py`. -/
def get_app_category (app_name : String) : String :=
  (lookupAssoc app_name APP_CATEGORIES).getD "Other"

/-- `sanitize_window_title` from `tracker/utils.py`: drop control characters,
truncate to `max_length` characters appending `"..."` when over-long, then
`strip()`. -/
def sanitize_window_title (title : String) (max_length : Nat) : String :=
  if title = "" then ""
  else
    let sanitized := title.data.filter (fun c => ¬ isControlChar c)
    let sanitized :=
      if max_length < sanitized.length then sanitized.take max_length ++ ['.', '.', '.']
      else sanitized
    String.mk (pyStripList sanitized)

/-! ### Timestamps -/

/-- Python `int()` on a float: truncation toward zero, on our rational model
of timestamps. -/
def pyInt (q : ℚ) : ℤ :=
  if 0 ≤ q then ⌊q⌋ else ⌈q⌉

/-! ### db/database.py — `save_usage_with_retry` -/

/-- Outcome of one attempt of the try-body of `save_usage_with_retry`
(`db.add` / `db.commit` / `db.refresh`). -/
inductive AttemptResult where
  /-- The commit succeeded. -/
  | success
  /-- `OperationalError` whose text contains `database is locked`. -/
  | lockBusy
  /-- Any other `OperationalError`. -/
  | otherOperational
  /-- Any other exception. -/
  | otherError
deriving DecidableEq

/-- Result of `save_usage_with_retry`: the returned boolean, how many
attempts of the loop body ran, and the `time.sleep` backoff delays (in
seconds) performed along the way. -/
structure RetryOutcome where
  saved : Bool
  attempts : ℕ
  delays : List ℚ
deriving DecidableEq

/-- The `for attempt in range(max_retries)` loop of `save_usage_with_retry`,
with `fuel` the number of loop iterations still available.  On `lockBusy`
the code rolls back, sleeps `(2 ** attempt) * 0.1`, and returns `False`
when this was the last allowed attempt; any other failure returns `False`
at once; falling off the loop returns `False`. -/
def retryGo (o : ℕ → AttemptResult) (max_retries : ℕ) : ℕ → ℕ → RetryOutcome
  | attempt, 0 => ⟨false, attempt, []⟩
  | attempt, fuel + 1 =>
    match o attempt with
    | .success => ⟨true, attempt + 1, []⟩
    | .lockBusy =>
      let wait_time : ℚ := (2 ^ attempt : ℚ) * (1 / 10)
      if attempt = max_retries - 1 then ⟨false, attempt + 1, [wait_time]⟩
      else
        let r := retryGo o max_retries (attempt + 1) fuel
        ⟨r.saved, r.attempts, wait_time :: r.delays⟩
    | .otherOperational => ⟨false, attempt + 1, []⟩
    | .otherError => ⟨false, attempt + 1, []⟩

/-- `save_usage_with_retry` from `db/database.py`, abstracted over the
outcome `o n` of the `n`-th commit attempt (0-based); `max_retries`
defaults to 3 at the call sites. -/
def save_usage_with_retry (o : ℕ → AttemptResult) (max_retries : ℕ) : RetryOutcome :=
  retryGo o max_retries 0 max_retries

/-! ### tracker/realtime_tracker.py — state and session close path -/

/-- The mutable session fields of `RealtimeTracker` that the tracking loop
reads and writes (`last_saved_session` keeps only its `"key"` entry, the
only one the code ever stores or reads). -/
structure TrackerState where
  current_app : Option String
  current_window_title : Option String
  session_start_time : Option ℚ
  last_heartbeat_time : Option ℚ
  last_saved_session : Option String
deriving DecidableEq

/-- One call of the `db_save` callback, with the arguments
`_save_and_broadcast_session` passes it. -/
structure SaveCall where
  app_name : String
  window_title : String
  start_time : ℚ
  end_time : ℚ
  duration_sec : ℤ
  category : String
deriving DecidableEq

/-- An event given to the `ws_broadcast` callback (the payload fields that
are not constants or raw OS echoes). -/
inductive Event where
  | session_start (app window_title category : String) (timestamp : ℚ)
  | session_end (app window_title : String) (duration_sec : ℤ)
      (start_t end_t : ℚ) (category : String)
  | idleEvt (idle_sec : ℤ) (timestamp : ℚ)
deriving DecidableEq

/-- Python truthiness of an `Optional[str]` field (`None` and `""` are
falsy). -/
def truthyStr : Option String → Bool
  | none => false
  | some s => decide (s ≠ "")

/-- Python truthiness of an `Optional[float]` field (`None` and `0.0` are
falsy). -/
def truthyTime : Option ℚ → Bool
  | none => false
  | some q => decide (q ≠ 0)

/-- The dedup key `f"{normalized_app}_{int(start_time)}"`. -/
def session_key_of (normalized_app : String) (start_time : ℚ) : String :=
  normalized_app ++ "_" ++ toString (pyInt start_time)

/-- Result of one call to `_save_and_broadcast_session`: the new
`last_saved_session` key, the `db_save` calls attempted, whether each
such call succeeded (an exception is caught and logged), and the events
handed to `ws_broadcast`. -/
structure SabOut where
  last_saved : Option String
  saves : List SaveCall
  save_results : List Bool
  events : List Event
deriving DecidableEq

/-- `_save_and_broadcast_session`: drop sessions shorter than 1 second,
drop a close whose key equals the last saved key, otherwise record the key,
attempt the save (`db_ok` tells whether the `db_save` callback succeeds or
raises; either way the exception is caught), then broadcast `session_end`. -/
def save_and_broadcast_session (db_ok : Bool) (last : Option String)
    (app_name window_title : String) (start_time end_time : ℚ) : SabOut :=
  let duration_sec := pyInt (end_time - start_time)
  if duration_sec < 1 then ⟨last, [], [], []⟩
  else
    let normalized_app := normalize_app_name app_name
    let category := get_app_category normalized_app
    let sanitized_title := sanitize_window_title window_title 200
    let session_key := session_key_of normalized_app start_time
    if last = some session_key then ⟨last, [], [], []⟩
    else
      ⟨some session_key,
       [⟨normalized_app, sanitized_title, start_time, end_time, duration_sec, category⟩],
       [db_ok],
       [.session_end normalized_app sanitized_title duration_sec start_time end_time category]⟩

/-- Result of one body of the tracking loop (or of `_handle_idle`): the new
tracker state plus the save calls and broadcast events it produced. -/
structure TickOut where
  state : TrackerState
  saves : List SaveCall
  save_results : List Bool
  events : List Event
deriving DecidableEq

/-- One iteration of `_tracking_loop`: skip when idle, skip when the probe
returns nothing, on an app change close the previous session (when the
`current_app and session_start_time` truthiness test passes) and open a new
one at `now` broadcasting `session_start`, otherwise refresh the window
title in place. -/
def tracking_tick (db_ok : Bool) (st : TrackerState) (is_idle : Bool)
    (window_info : Option (String × String)) (now : ℚ) : TickOut :=
  if is_idle then ⟨st, [], [], []⟩
  else
    match window_info with
    | none => ⟨st, [], [], []⟩
    | some (app_name, window_title) =>
      if st.current_app ≠ some app_name then
        let sab :=
          if truthyStr st.current_app && truthyTime st.session_start_time then
            save_and_broadcast_session db_ok st.last_saved_session
              (st.current_app.getD "") (st.current_window_title.getD "")
              (st.session_start_time.getD 0) now
          else ⟨st.last_saved_session, [], [], []⟩
        let normalized_app := normalize_app_name app_name
        let category := get_app_category normalized_app
        { state := { current_app := some app_name,
                     current_window_title := some window_title,
                     session_start_time := some now,
                     last_heartbeat_time := some now,
                     last_saved_session := sab.last_saved },
          saves := sab.saves,
          save_results := sab.save_results,
          events := sab.events ++
            [.session_start normalized_app (sanitize_window_title window_title 200)
               category now] }
      else if st.current_window_title ≠ some window_title then
        ⟨{ st with current_window_title := some window_title }, [], [], []⟩
      else ⟨st, [], [], []⟩

/-- `_handle_idle`: close the current session at `now` when one is open
(same truthiness test as the loop), reset the session fields, then
broadcast an `idle` event. -/
def handle_idle (db_ok : Bool) (st : TrackerState) (now idle_duration : ℚ) : TickOut :=
  if truthyStr st.current_app && truthyTime st.session_start_time then
    let sab := save_and_broadcast_session db_ok st.last_saved_session
      (st.current_app.getD "") (st.current_window_title.getD "")
      (st.session_start_time.getD 0) now
    { state := { current_app := none,
                 current_window_title := none,
                 session_start_time := none,
                 last_heartbeat_time := st.last_heartbeat_time,
                 last_saved_session := sab.last_saved },
      saves := sab.saves,
      save_results := sab.save_results,
      events := sab.events ++ [.idleEvt (pyInt idle_duration) now] }
  else
    ⟨st, [], [], [.idleEvt (pyInt idle_duration) now]⟩

/-! ### tracker/idle_detector.py -/

/-- The fields of `IdleDetector` the claims touch; `listeners_active` tells
whether the pynput input listeners are hooked (they feed `_on_activity`),
`running` whether `_running` is set (it gates the monitor loop body). -/
structure IdleDetectorState where
  idle_threshold : ℚ
  last_activity_time : ℚ
  is_idle : Bool
  running : Bool
  listeners_active : Bool
deriving DecidableEq

/-- `IdleDetector.__init__` (at construction time `time.time()` is `now`). -/
def idleDetectorInit (threshold now : ℚ) : IdleDetectorState :=
  ⟨threshold, now, false, false, false⟩

/-- The operations that can reach an `IdleDetector`: `start` (with whether
the pynput import succeeded), `stop`, an input-listener activity callback,
and one evaluation of the `_monitor_idle_state` loop body. -/
inductive IdleOp where
  | start (pynput_available : Bool)
  | stop
  | activity (now : ℚ)
  | monitorTick (now : ℚ)
deriving DecidableEq

/-- State transition of `IdleDetector`.  `start` returns without effect
when pynput is unavailable; an activity callback can only fire while the
listeners are hooked; the monitor body only acts while `_running` holds and
flips `is_idle` once `idle_duration >= idle_threshold`. -/
def idle_step (s : IdleDetectorState) : IdleOp → IdleDetectorState
  | .start avail =>
    if ¬ avail then s
    else if s.running then s
    else { s with running := true, listeners_active := true }
  | .stop =>
    if ¬ s.running then s
    else { s with running := false, listeners_active := false }
  | .activity now =>
    if s.listeners_active then
      { s with last_activity_time := now, is_idle := false }
    else s
  | .monitorTick now =>
    if s.running && !s.is_idle && decide (s.idle_threshold ≤ now - s.last_activity_time) then
      { s with is_idle := true }
    else s

/-- `IdleDetector.is_user_idle`. -/
def is_user_idle (s : IdleDetectorState) : Bool := s.is_idle

/-! ### main.py — ConnectionManager -/

/-- A WebSocket connection as the broadcast path sees it: an identity and
whether `send_json` succeeds on it (a failing send raises, is caught, and
queues the connection for removal). -/
structure Conn where
  id : ℕ
  send_ok : Bool
deriving DecidableEq

/-- The `for connection in self.active_connections` loop of
`ConnectionManager.broadcast`: returns the ids that received the message
(in iteration order) and the `disconnected` set. -/
def broadcastLoop : List Conn → List ℕ × List Conn
  | [] => ([], [])
  | c :: rest =>
    let r := broadcastLoop rest
    if c.send_ok then (c.id :: r.1, r.2) else (r.1, c :: r.2)

/-- `ConnectionManager.broadcast`: early return on an empty registry, try
to send to every registered connection, then `disconnect` (discard from the
registry) each connection whose send failed.  Returns the new registry and
the ids delivered to. -/
def broadcast (active : List Conn) : List Conn × List ℕ :=
  if active.isEmpty then (active, [])
  else
    let r := broadcastLoop active
    (active.filter (fun c => decide (c ∉ r.2)), r.1)

/-! ### Helper lemmas -/

lemma pyInt_lt_one {d : ℚ} (h : d < 1) : pyInt d < 1 := by
  by_cases h0 : 0 ≤ d
  · simp only [pyInt, h0, if_true]
    exact Int.floor_lt.mpr (by exact_mod_cast h)
  · simp only [pyInt, h0, if_false]
    have hle : d ≤ 0 := le_of_lt (lt_of_not_ge h0)
    exact lt_of_le_of_lt (Int.ceil_le.mpr (by exact_mod_cast hle)) one_pos

lemma one_le_pyInt {d : ℚ} (h : 1 ≤ d) : 1 ≤ pyInt d := by
  have h0 : 0 ≤ d := le_trans zero_le_one h
  simp only [pyInt, h0, if_true]
  exact Int.le_floor.mpr (by exact_mod_cast h)

lemma pyStripList_length_le (l : List Char) : (pyStripList l).length ≤ l.length := by
  unfold pyStripList
  calc (((l.dropWhile isPySpaceChar).reverse.dropWhile isPySpaceChar).reverse).length
      = ((l.dropWhile isPySpaceChar).reverse.dropWhile isPySpaceChar).length := by
        rw [List.length_reverse]
    _ ≤ (l.dropWhile isPySpaceChar).reverse.length :=
        (List.dropWhile_sublist isPySpaceChar).length_le
    _ = (l.dropWhile isPySpaceChar).length := List.length_reverse _
    _ ≤ l.length := (List.dropWhile_sublist isPySpaceChar).length_le

lemma mem_pyStripList {c : Char} {l : List Char} (h : c ∈ pyStripList l) : c ∈ l := by
  unfold pyStripList at h
  rw [List.mem_reverse] at h
  have h1 := (List.dropWhile_sublist _).subset h
  rw [List.mem_reverse] at h1
  exact (List.dropWhile_sublist _).subset h1

/-- `_save_and_broadcast_session` either does nothing (beyond keeping the
old key) or records the key, attempts exactly one save and broadcasts
exactly one `session_end` — with the start and end times it was given. -/
lemma sab_shape (db_ok : Bool) (last : Option String) (app w : String) (s e : ℚ) :
    save_and_broadcast_session db_ok last app w s e = ⟨last, [], [], []⟩ ∨
    save_and_broadcast_session db_ok last app w s e =
      ⟨some (session_key_of (normalize_app_name app) s),
       [⟨normalize_app_name app, sanitize_window_title w 200, s, e, pyInt (e - s),
         get_app_category (normalize_app_name app)⟩],
       [db_ok],
       [.session_end (normalize_app_name app) (sanitize_window_title w 200)
          (pyInt (e - s)) s e (get_app_category (normalize_app_name app))]⟩ := by
  unfold save_and_broadcast_session
  by_cases hd : pyInt (e - s) < 1
  · left; simp [hd]
  · by_cases hk : last = some (session_key_of (normalize_app_name app) s)
    · left; simp [hd, hk]
    · right; simp [hd, hk]

/-! ### Claim theorems -/

/-- C8: on a tick where the user is not idle and the window probe returns
`None`, the tracker state is unchanged — `current_app`,
`current_window_title` and `session_start_time` keep their prior values —
and no save call is made and no event of any kind is emitted. -/
theorem probe_none_tick_no_change (db_ok : Bool) (st : TrackerState) (now : ℚ) :
    tracking_tick db_ok st false none now = ⟨st, [], [], []⟩ := rfl

/-- C2: a session close whose `end_time - start_time` is strictly below one
second is a silent drop — no save call is attempted, no `session_end` (or
other) event is broadcast, and the dedup key is left unchanged. -/
theorem short_session_silent_drop (db_ok : Bool) (last : Option String)
    (app w : String) (s e : ℚ) (h : e - s < 1) :
    save_and_broadcast_session db_ok last app w s e = ⟨last, [], [], []⟩ := by
  have hd : pyInt (e - s) < 1 := pyInt_lt_one h
  unfold save_and_broadcast_session
  simp [hd]

/-- Witness for C2 at a concrete half-second session. -/
theorem short_session_silent_drop_witness :
    save_and_broadcast_session true none "chrome.exe" "t" 100 (100 + 1 / 2) =
      ⟨none, [], [], []⟩ :=
  short_session_silent_drop true none "chrome.exe" "t" 100 (100 + 1 / 2) (by norm_num)

/-- C5: closing the same session twice is idempotent.  Once a close of at
least one second has run (so the session key — normalized app name plus
start time truncated to whole seconds — is recorded, whether or not that
close was itself deduplicated), a second invocation of the close path
carrying the same session key — any window title, any end time (in
particular the later end time of a tick/stop race), any start time and
raw app name with the same normalized app and truncated start — makes no
save call, emits no event, and leaves the dedup key unchanged. -/
theorem session_close_idempotent (db_ok1 db_ok2 : Bool) (last : Option String)
    (app w app2 w2 : String) (s e s2 e2 : ℚ) (hdur : 1 ≤ e - s)
    (hkey : session_key_of (normalize_app_name app2) s2 =
      session_key_of (normalize_app_name app) s) :
    (save_and_broadcast_session db_ok2
       (save_and_broadcast_session db_ok1 last app w s e).last_saved
       app2 w2 s2 e2).saves = [] ∧
    (save_and_broadcast_session db_ok2
       (save_and_broadcast_session db_ok1 last app w s e).last_saved
       app2 w2 s2 e2).events = [] ∧
    (save_and_broadcast_session db_ok2
       (save_and_broadcast_session db_ok1 last app w s e).last_saved
       app2 w2 s2 e2).last_saved =
      (save_and_broadcast_session db_ok1 last app w s e).last_saved := by
  have hd : ¬ pyInt (e - s) < 1 := not_lt.mpr (one_le_pyInt hdur)
  have hr1 : (save_and_broadcast_session db_ok1 last app w s e).last_saved =
      some (session_key_of (normalize_app_name app) s) := by
    unfold save_and_broadcast_session
    by_cases hk : last = some (session_key_of (normalize_app_name app) s)
    · simp [hd, hk]
    · simp [hd, hk]
  rw [hr1]
  unfold save_and_broadcast_session
  by_cases hd2 : pyInt (e2 - s2) < 1
  · simp [hd2]
  · simp [hd2, hkey]

/-- Witness for C5: a 5-second chrome close at start 100 followed by a
racing second close with a later end (106.5), a refreshed title, and a
start of 100.5 whose truncation gives the same key; the second close is a
no-op. -/
theorem session_close_idempotent_witness :
    (save_and_broadcast_session true
       (save_and_broadcast_session true none "chrome.exe" "t" 100 105).last_saved
       "chrome.exe" "u" (100 + 1 / 2) (106 + 1 / 2)).saves = [] ∧
    (save_and_broadcast_session true
       (save_and_broadcast_session true none "chrome.exe" "t" 100 105).last_saved
       "chrome.exe" "u" (100 + 1 / 2) (106 + 1 / 2)).events = [] ∧
    (save_and_broadcast_session true
       (save_and_broadcast_session true none "chrome.exe" "t" 100 105).last_saved
       "chrome.exe" "u" (100 + 1 / 2) (106 + 1 / 2)).last_saved =
      (save_and_broadcast_session true none "chrome.exe" "t" 100 105).last_saved :=
  session_close_idempotent true true none "chrome.exe" "t" "chrome.exe" "u"
    100 105 (100 + 1 / 2) (106 + 1 / 2) (by norm_num)
    (by
      have h1 : pyInt (100 + 1 / 2 : ℚ) = 100 := by
        rw [pyInt, if_pos (by norm_num)]
        norm_num [Int.floor_eq_iff]
      have h2 : pyInt (100 : ℚ) = 100 := by
        rw [pyInt, if_pos (by norm_num)]
        norm_num
      unfold session_key_of
      rw [h1, h2])

/-- C4: `save_usage_with_retry` retries only lock-busy failures, with
backoff delays 0.1s then 0.2s then 0.4s and at most 3 attempts: two
lock-busy failures followed by success commit on the 3rd attempt and
return success; three lock-busy failures return failure after exactly 3
attempts (no 4th); a first-attempt failure that is not lock-busy (another
`OperationalError` or any other exception) returns failure after that
single attempt, with no backoff sleep. -/
theorem save_usage_with_retry_policy (o : ℕ → AttemptResult) :
    (o 0 = .lockBusy → o 1 = .lockBusy → o 2 = .success →
       save_usage_with_retry o 3 = ⟨true, 3, [1 / 10, 1 / 5]⟩) ∧
    (o 0 = .lockBusy → o 1 = .lockBusy → o 2 = .lockBusy →
       save_usage_with_retry o 3 = ⟨false, 3, [1 / 10, 1 / 5, 2 / 5]⟩) ∧
    (o 0 = .otherOperational ∨ o 0 = .otherError →
       save_usage_with_retry o 3 = ⟨false, 1, []⟩) ∧
    (o 0 = .lockBusy → (o 1 = .otherOperational ∨ o 1 = .otherError) →
       save_usage_with_retry o 3 = ⟨false, 2, [1 / 10]⟩) := by
  refine ⟨fun h0 h1 h2 => ?_, fun h0 h1 h2 => ?_, fun h0 => ?_, fun h0 h1 => ?_⟩
  · simp [save_usage_with_retry, retryGo, h0, h1, h2]
    norm_num
  · simp [save_usage_with_retry, retryGo, h0, h1, h2]
    norm_num
  · rcases h0 with h0 | h0 <;> simp [save_usage_with_retry, retryGo, h0]
  · rcases h1 with h1 | h1 <;> simp [save_usage_with_retry, retryGo, h0, h1]

/-- Witness for C4 on three concrete attempt-outcome sequences. -/
theorem save_usage_with_retry_policy_witness :
    save_usage_with_retry (fun n => if n < 2 then .lockBusy else .success) 3 =
        ⟨true, 3, [1 / 10, 1 / 5]⟩ ∧
    save_usage_with_retry (fun _ => .lockBusy) 3 = ⟨false, 3, [1 / 10, 1 / 5, 2 / 5]⟩ ∧
    save_usage_with_retry (fun _ => .otherError) 3 = ⟨false, 1, []⟩ ∧
    save_usage_with_retry (fun n => if n = 0 then .lockBusy else .otherOperational) 3 =
      ⟨false, 2, [1 / 10]⟩ :=
  ⟨(save_usage_with_retry_policy (fun n => if n < 2 then .lockBusy else .success)).1
      rfl rfl rfl,
   (save_usage_with_retry_policy (fun _ => .lockBusy)).2.1 rfl rfl rfl,
   (save_usage_with_retry_policy (fun _ => .otherError)).2.2.1 (Or.inr rfl),
   (save_usage_with_retry_policy
      (fun n => if n = 0 then .lockBusy else .otherOperational)).2.2.2 rfl (Or.inl rfl)⟩

/-- The send loop collects exactly the successful ids (in order) and the
failing connections. -/
lemma broadcastLoop_eq (l : List Conn) :
    broadcastLoop l =
      ((l.filter (fun c => c.send_ok)).map Conn.id,
       l.filter (fun c => ¬ c.send_ok)) := by
  induction l with
  | nil => rfl
  | cons c rest ih =>
    by_cases hc : c.send_ok <;> simp [broadcastLoop, ih, hc, List.filter_cons]

/-- C6: `broadcast` delivers to every subscriber whose send succeeds even
when other subscribers fail, never raises to the publisher (it is a total
function of the registry), and removes exactly the failing subscribers
from the registry; in particular with subscribers 1–5 where #3 always
fails, 1, 2, 4, 5 all receive the message and #3 alone is unregistered. -/
theorem broadcast_delivers_and_prunes :
    (∀ active : List Conn,
       broadcast active =
         (active.filter (fun c => c.send_ok),
          (active.filter (fun c => c.send_ok)).map Conn.id)) ∧
    broadcast [⟨1, true⟩, ⟨2, true⟩, ⟨3, false⟩, ⟨4, true⟩, ⟨5, true⟩] =
      ([⟨1, true⟩, ⟨2, true⟩, ⟨4, true⟩, ⟨5, true⟩], [1, 2, 4, 5]) := by
  have hmain : ∀ active : List Conn,
      broadcast active =
        (active.filter (fun c => c.send_ok),
         (active.filter (fun c => c.send_ok)).map Conn.id) := by
    intro active
    unfold broadcast
    by_cases hemp : active.isEmpty
    · rw [List.isEmpty_iff] at hemp
      simp [hemp]
    · have hfilter : active.filter
          (fun c => decide (c ∉ active.filter (fun c => ¬ c.send_ok))) =
          active.filter (fun c => c.send_ok) := by
        apply List.filter_congr
        intro c hc
        by_cases hok : c.send_ok
        · simp [List.mem_filter, hok]
        · simp [List.mem_filter, hc, hok]
      simp only [hemp, if_false, broadcastLoop_eq]
      rw [hfilter]
      simp
  exact ⟨hmain, by rw [hmain]; rfl⟩

/-- C1: on a tick that is not idle, whose probe succeeds with app `b`
different from the open session's app `a`, the loop closes `a`'s session
using the tick's observation time `now` as the end (every attempted save
and every `session_end` event carries `end_time = now` and the old
`start_time`) and opens `b`'s session with `start_time = now` — the same
instant, so no gap and no overlap — broadcasting `session_start` for it. -/
theorem tracking_tick_switch_no_gap (db_ok : Bool) (st : TrackerState)
    (a b wt : String) (ts now : ℚ)
    (ha : st.current_app = some a) (hne : a ≠ "")
    (hts : st.session_start_time = some ts) (hts0 : ts ≠ 0) (hab : b ≠ a) :
    (tracking_tick db_ok st false (some (b, wt)) now).state.current_app = some b ∧
    (tracking_tick db_ok st false (some (b, wt)) now).state.session_start_time = some now ∧
    (∀ sc ∈ (tracking_tick db_ok st false (some (b, wt)) now).saves,
       sc.app_name = normalize_app_name a ∧ sc.start_time = ts ∧ sc.end_time = now) ∧
    (∀ ap wi d s e cat,
       Event.session_end ap wi d s e cat ∈
           (tracking_tick db_ok st false (some (b, wt)) now).events →
         s = ts ∧ e = now) ∧
    Event.session_start (normalize_app_name b) (sanitize_window_title wt 200)
        (get_app_category (normalize_app_name b)) now ∈
      (tracking_tick db_ok st false (some (b, wt)) now).events := by
  have hcond : st.current_app ≠ some b := by
    rw [ha]; intro h; exact hab (Option.some.injEq a b ▸ h).symm
  have htr1 : truthyStr st.current_app = true := by simp [truthyStr, ha, hne]
  have htr2 : truthyTime st.session_start_time = true := by simp [truthyTime, hts, hts0]
  have hgetA : st.current_app.getD "" = a := by rw [ha]; rfl
  have hgetT : st.session_start_time.getD 0 = ts := by rw [hts]; rfl
  have hshape := sab_shape db_ok st.last_saved_session a
    (st.current_window_title.getD "") ts now
  unfold tracking_tick
  simp only [if_false, Bool.false_eq_true, ite_false, hcond, ne_eq,
    not_false_iff, if_true, htr1, htr2, Bool.and_self, hgetA, hgetT]
  rcases hshape with hsab | hsab <;>
    simp [hsab, Event.session_end, List.mem_append]
  intro ap wi d s e cat h1 h2 h3 h4 h5 h6
  exact ⟨h4, h5⟩

/-- Witness for C1: switching from chrome to code at time 105 with a
session opened at 100. -/
theorem tracking_tick_switch_no_gap_witness :
    (tracking_tick true ⟨some "chrome.exe", some "t", some 100, some 100, none⟩
        false (some ("code.exe", "w")) 105).state.current_app = some "code.exe" ∧
    (tracking_tick true ⟨some "chrome.exe", some "t", some 100, some 100, none⟩
        false (some ("code.exe", "w")) 105).state.session_start_time = some 105 ∧
    (∀ sc ∈ (tracking_tick true ⟨some "chrome.exe", some "t", some 100, some 100, none⟩
        false (some ("code.exe", "w")) 105).saves,
       sc.app_name = normalize_app_name "chrome.exe" ∧
       sc.start_time = 100 ∧ sc.end_time = 105) ∧
    (∀ ap wi d s e cat,
       Event.session_end ap wi d s e cat ∈
           (tracking_tick true ⟨some "chrome.exe", some "t", some 100, some 100, none⟩
             false (some ("code.exe", "w")) 105).events →
         s = 100 ∧ e = 105) ∧
    Event.session_start (normalize_app_name "code.exe")
        (sanitize_window_title "w" 200)
        (get_app_category (normalize_app_name "code.exe")) 105 ∈
      (tracking_tick true ⟨some "chrome.exe", some "t", some 100, some 100, none⟩
        false (some ("code.exe", "w")) 105).events :=
  tracking_tick_switch_no_gap true
    ⟨some "chrome.exe", some "t", some 100, some 100, none⟩
    "chrome.exe" "code.exe" "w" 100 105 rfl (by decide) rfl (by norm_num) (by decide)

/-- C3: while the idle detector reports idle, a tick performs no
transition whatever the probe returns (no state change, no save, no
event); and after an idle episode has closed the open session via
`_handle_idle`, the next active tick that observes the same app `a`
opens a brand-new session with `start_time` equal to that tick's time,
broadcasting a fresh `session_start` — it does not resume the old one. -/
theorem idle_blocks_open_and_reopen_fresh (db_ok : Bool) (st : TrackerState)
    (a : String) (ts : ℚ)
    (ha : st.current_app = some a) (hne : a ≠ "")
    (hts : st.session_start_time = some ts) (hts0 : ts ≠ 0) :
    (∀ window_info now, tracking_tick db_ok st true window_info now = ⟨st, [], [], []⟩) ∧
    (∀ now1 d wt now2,
       (handle_idle db_ok st now1 d).state.current_app = none ∧
       (handle_idle db_ok st now1 d).state.session_start_time = none ∧
       (tracking_tick db_ok (handle_idle db_ok st now1 d).state false
           (some (a, wt)) now2).state.current_app = some a ∧
       (tracking_tick db_ok (handle_idle db_ok st now1 d).state false
           (some (a, wt)) now2).state.session_start_time = some now2 ∧
       (tracking_tick db_ok (handle_idle db_ok st now1 d).state false
           (some (a, wt)) now2).saves = [] ∧
       (tracking_tick db_ok (handle_idle db_ok st now1 d).state false
           (some (a, wt)) now2).events =
         [.session_start (normalize_app_name a) (sanitize_window_title wt 200)
            (get_app_category (normalize_app_name a)) now2]) := by
  have htr1 : truthyStr st.current_app = true := by simp [truthyStr, ha, hne]
  have htr2 : truthyTime st.session_start_time = true := by simp [truthyTime, hts, hts0]
  constructor
  · intro window_info now
    rfl
  · intro now1 d wt now2
    have hst1 : (handle_idle db_ok st now1 d).state.current_app = none ∧
        (handle_idle db_ok st now1 d).state.session_start_time = none := by
      unfold handle_idle
      simp [htr1, htr2]
    refine ⟨hst1.1, hst1.2, ?_⟩
    unfold tracking_tick
    have hnone : (handle_idle db_ok st now1 d).state.current_app ≠ some a := by
      rw [hst1.1]; exact Option.noConfusion
    have htf : truthyStr (handle_idle db_ok st now1 d).state.current_app = false := by
      rw [hst1.1]; rfl
    simp [hnone, htf]

/-- Witness for C3: a chrome session open at 100 survives an idle probe
unchanged, and after the idle close at 400 the same app observed at 500
gets a new session starting at 500. -/
theorem idle_blocks_open_and_reopen_fresh_witness :
    (∀ window_info now,
       tracking_tick true ⟨some "chrome.exe", some "t", some 100, some 100, none⟩
         true window_info now =
         ⟨⟨some "chrome.exe", some "t", some 100, some 100, none⟩, [], [], []⟩) ∧
    (∀ now1 d wt now2,
       (handle_idle true ⟨some "chrome.exe", some "t", some 100, some 100, none⟩
          now1 d).state.current_app = none ∧
       (handle_idle true ⟨some "chrome.exe", some "t", some 100, some 100, none⟩
          now1 d).state.session_start_time = none ∧
       (tracking_tick true
           (handle_idle true ⟨some "chrome.exe", some "t", some 100, some 100, none⟩
              now1 d).state false (some ("chrome.exe", wt)) now2).state.current_app =
         some "chrome.exe" ∧
       (tracking_tick true
           (handle_idle true ⟨some "chrome.exe", some "t", some 100, some 100, none⟩
              now1 d).state false
           (some ("chrome.exe", wt)) now2).state.session_start_time = some now2 ∧
       (tracking_tick true
           (handle_idle true ⟨some "chrome.exe", some "t", some 100, some 100, none⟩
              now1 d).state false (some ("chrome.exe", wt)) now2).saves = [] ∧
       (tracking_tick true
           (handle_idle true ⟨some "chrome.exe", some "t", some 100, some 100, none⟩
              now1 d).state false (some ("chrome.exe", wt)) now2).events =
         [.session_start (normalize_app_name "chrome.exe")
            (sanitize_window_title wt 200)
            (get_app_category (normalize_app_name "chrome.exe")) now2]) :=
  idle_blocks_open_and_reopen_fresh true
    ⟨some "chrome.exe", some "t", some 100, some 100, none⟩
    "chrome.exe" 100 rfl (by decide) rfl (by norm_num)

/-- C7: when pynput cannot be imported, `start` returns without hooking
anything, so whatever sequence of operations follows (further starts with
pynput still missing, stops, would-be listener callbacks, monitor-loop
evaluations at any times), `is_user_idle` always answers `false` — idle
state permanently reads as active and nothing crashes (every step is a
total function). -/
theorem idle_detection_disabled_reads_active (threshold t0 : ℚ) (ops : List IdleOp)
    (h : ∀ b, IdleOp.start b ∈ ops → b = false) :
    is_user_idle (ops.foldl idle_step (idleDetectorInit threshold t0)) = false := by
  suffices hs : ∀ l : List IdleOp, (∀ b, IdleOp.start b ∈ l → b = false) →
      ∀ s : IdleDetectorState, s.is_idle = false → s.running = false →
      s.listeners_active = false → (l.foldl idle_step s).is_idle = false by
    exact hs ops h _ rfl rfl rfl
  intro l
  induction l with
  | nil =>
    intro _ s h1 _ _
    simpa using h1
  | cons op rest ih =>
    intro hops s h1 h2 h3
    have hstep : idle_step s op = s := by
      cases op with
      | start b =>
        have hb : b = false := hops b (List.mem_cons_self _ _)
        subst hb
        simp [idle_step]
      | stop => simp [idle_step, h2]
      | activity now => simp [idle_step, h3]
      | monitorTick now => simp [idle_step, h2]
    rw [List.foldl_cons, hstep]
    exact ih (fun b hb => hops b (List.mem_cons_of_mem _ hb)) s h1 h2 h3

/-- Witness for C7: start without pynput, then monitor samples far past the
threshold and an impossible activity callback; the detector still reads
active. -/
theorem idle_detection_disabled_reads_active_witness :
    is_user_idle
      ([IdleOp.start false, IdleOp.monitorTick 1000, IdleOp.activity 5,
        IdleOp.monitorTick 2000, IdleOp.stop].foldl idle_step
        (idleDetectorInit 180 0)) = false :=
  idle_detection_disabled_reads_active 180 0
    [IdleOp.start false, IdleOp.monitorTick 1000, IdleOp.activity 5,
     IdleOp.monitorTick 2000, IdleOp.stop] (by decide)

set_option maxRecDepth 8192 in
/-- C9 counterexample: on 201 letters `a`, `sanitize_window_title` with the
default `max_length = 200` returns a 203-character string (the 200 kept
characters plus the appended `"..."`), so the claimed bound of 200 fails. -/
theorem sanitize_title_length_bound_fails :
    ¬ ((sanitize_window_title (String.mk (List.replicate 201 'a')) 200).length ≤ 200) := by
  decide

/-- C9 amended: `sanitize_window_title` with `max_length = 200` returns a
string with no control character (U+0000–U+001F, U+007F–U+009F) whose
length is at most 203 = `max_length` plus the three appended dots. -/
theorem sanitize_title_no_control_and_length_le (title : String) :
    (∀ c ∈ (sanitize_window_title title 200).data, isControlChar c = false) ∧
    (sanitize_window_title title 200).length ≤ 203 := by
  unfold sanitize_window_title
  by_cases ht : title = ""
  · simp [ht]
  · simp only [ht, if_false]
    by_cases hlen : 200 < (title.data.filter (fun c => ¬ isControlChar c)).length
    · simp only [hlen, if_true]
      constructor
      · intro c hc
        have hc1 : c ∈ (title.data.filter (fun c => ¬ isControlChar c)).take 200 ++
            ['.', '.', '.'] := mem_pyStripList hc
        rcases List.mem_append.mp hc1 with hmem | hmem
        · have hs1 : c ∈ title.data.filter (fun c => ¬ isControlChar c) :=
            List.take_subset 200 _ hmem
          have := (List.mem_filter.mp hs1).2
          simpa using this
        · have hdot : c = '.' := by simpa using hmem
          subst hdot
          decide
      · calc (String.mk (pyStripList
              ((title.data.filter (fun c => ¬ isControlChar c)).take 200 ++
                ['.', '.', '.']))).length
            = (pyStripList ((title.data.filter (fun c => ¬ isControlChar c)).take 200 ++
                ['.', '.', '.'])).length := rfl
          _ ≤ ((title.data.filter (fun c => ¬ isControlChar c)).take 200 ++
                ['.', '.', '.']).length := pyStripList_length_le _
          _ = ((title.data.filter (fun c => ¬ isControlChar c)).take 200).length + 3 := by
                simp
          _ ≤ 200 + 3 := by
                have hle : ((title.data.filter (fun c => ¬ isControlChar c)).take
                    200).length ≤ 200 := by
                  rw [List.length_take]; exact min_le_left _ _
                omega
    · simp only [hlen, if_false]
      constructor
      · intro c hc
        have hs1 : c ∈ title.data.filter (fun c => ¬ isControlChar c) :=
          mem_pyStripList hc
        have := (List.mem_filter.mp hs1).2
        simpa using this
      · have h1 : (pyStripList (title.data.filter (fun c => ¬ isControlChar c))).length ≤
            (title.data.filter (fun c => ¬ isControlChar c)).length :=
          pyStripList_length_le _
        have h2 : (title.data.filter (fun c => ¬ isControlChar c)).length ≤ 200 :=
          le_of_not_lt hlen
        calc (String.mk (pyStripList (title.data.filter
              (fun c => ¬ isControlChar c)))).length
            = (pyStripList (title.data.filter (fun c => ¬ isControlChar c))).length := rfl
          _ ≤ 200 := le_trans h1 h2
          _ ≤ 203 := by omega

/-- C10: when the persistence callback raises during a close of at least
one second with a fresh session key, the close path still completes: the
failed save is recorded (`save_results = [false]`, nothing propagates —
the function is total), the `session_end` event is still broadcast, the
session key is recorded anyway, and an immediately repeated close attempt
for the same session (same app and start time, any end time) makes no
save call and emits nothing. -/
theorem db_failure_close_still_broadcasts (last : Option String) (app w : String)
    (s e : ℚ) (hdur : 1 ≤ e - s)
    (hfresh : last ≠ some (session_key_of (normalize_app_name app) s)) :
    (save_and_broadcast_session false last app w s e).last_saved =
        some (session_key_of (normalize_app_name app) s) ∧
    (save_and_broadcast_session false last app w s e).save_results = [false] ∧
    (save_and_broadcast_session false last app w s e).events =
      [.session_end (normalize_app_name app) (sanitize_window_title w 200)
         (pyInt (e - s)) s e (get_app_category (normalize_app_name app))] ∧
    (∀ db_ok2 e2,
       (save_and_broadcast_session db_ok2
          (save_and_broadcast_session false last app w s e).last_saved
          app w s e2).saves = [] ∧
       (save_and_broadcast_session db_ok2
          (save_and_broadcast_session false last app w s e).last_saved
          app w s e2).events = []) := by
  have hd : ¬ pyInt (e - s) < 1 := not_lt.mpr (one_le_pyInt hdur)
  have hmain : save_and_broadcast_session false last app w s e =
      ⟨some (session_key_of (normalize_app_name app) s),
       [⟨normalize_app_name app, sanitize_window_title w 200, s, e, pyInt (e - s),
         get_app_category (normalize_app_name app)⟩],
       [false],
       [.session_end (normalize_app_name app) (sanitize_window_title w 200)
          (pyInt (e - s)) s e (get_app_category (normalize_app_name app))]⟩ := by
    unfold save_and_broadcast_session
    simp [hd, hfresh]
  refine ⟨by rw [hmain], by rw [hmain], by rw [hmain], ?_⟩
  intro db_ok2 e2
  rw [hmain]
  unfold save_and_broadcast_session
  by_cases hd2 : pyInt (e2 - s) < 1
  · simp [hd2]
  · simp [hd2]

/-- Witness for C10: a 5-second chrome session whose save raises is still
broadcast, keyed, and protected against a duplicate close. -/
theorem db_failure_close_still_broadcasts_witness :
    (save_and_broadcast_session false none "chrome.exe" "t" 100 105).last_saved =
        some (session_key_of (normalize_app_name "chrome.exe") 100) ∧
    (save_and_broadcast_session false none "chrome.exe" "t" 100 105).save_results =
        [false] ∧
    (save_and_broadcast_session false none "chrome.exe" "t" 100 105).events =
      [.session_end (normalize_app_name "chrome.exe")
         (sanitize_window_title "t" 200) (pyInt (105 - 100)) 100 105
         (get_app_category (normalize_app_name "chrome.exe"))] ∧
    (∀ db_ok2 e2,
       (save_and_broadcast_session db_ok2
          (save_and_broadcast_session false none "chrome.exe" "t" 100 105).last_saved
          "chrome.exe" "t" 100 e2).saves = [] ∧
       (save_and_broadcast_session db_ok2
          (save_and_broadcast_session false none "chrome.exe" "t" 100 105).last_saved
          "chrome.exe" "t" 100 e2).events = []) :=
  db_failure_close_still_broadcasts none "chrome.exe" "t" 100 105 (by norm_num)
    (by decide)

end ScreenTime
